import Mathlib

/-!
Verification of the calibration practice app (streamlit_app.py).

The embedding models the scoring core of the app:
  - `collectRow` / `collect_responses` embed `collect_responses` (lines 154-196):
    per-question session input is an optional selected-answer string and an
    optional confidence string; a question is skipped when either is absent,
    empty, or the literal "?", the confidence string is parsed as
    `int(conf_str.rstrip("%"))`, and correctness is decided by comparing the
    selected text with the text of the option slot named by `correct`.
  - `compute_calibration` embeds `compute_calibration` (lines 199-221): a
    pandas group-by on `confidence_percent` (group keys sorted ascending,
    one group per key that occurs), per-group size / correct-count /
    percent-correct, a Brier-style mean, overall accuracy and the row count.
  - `score_button_handler` embeds the button handler (lines 224-230): fewer
    than one collected response produces a warning and no computation.

Python ints are modelled as `Int`, floats as `Rat` (the computations involved
are exact in ℚ; the float results agree up to rounding). A Python exception
is modelled as the `Except.error` branch.
-/

/-- A question-bank record (columns of questions.csv, lines 33-40). -/
structure Question where
  id : Int
  round : String
  prompt : String
  qtype : String
  option_1 : String
  option_2 : String
  correct : Int
deriving DecidableEq

/-- A row of the DataFrame built by `collect_responses` (lines 171-181). -/
structure ScoredResponse where
  id : Int
  round : String
  prompt : String
  selected_answer : String
  correct_answer : String
  is_correct : Bool
  confidence_percent : Int
deriving DecidableEq

/-- A row of the grouped DataFrame returned by `compute_calibration`
(lines 204-212): group key, group size, correct count, percentage, and the
`stated_confidence` copy of the key. -/
structure CalibrationBucket where
  confidence_percent : Int
  n_questions : Nat
  n_correct : Nat
  percent_correct : Rat
  stated_confidence : Int
deriving DecidableEq

/-- Python `s.rstrip("%")`: remove every trailing `%` character. -/
def pyRstripPercent (s : String) : String :=
  String.mk ((s.data.reverse.dropWhile (fun ch => ch == '%')).reverse)

/-- Digit-string to number; `none` when empty or containing a non-digit. -/
def toNatDigits (cs : List Char) : Option Nat :=
  if cs = [] then none
  else if cs.all (fun ch => ch.isDigit) then
    some (cs.foldl (fun n ch => 10 * n + (ch.toNat - 48)) 0)
  else none

/-- Python `int(s)` on a plain decimal string: optional sign then digits,
`none` when the string does not parse (Python raises `ValueError`). -/
def pyInt (s : String) : Option Int :=
  match s.data with
  | '-' :: rest => (toNatDigits rest).map (fun n => -(n : Int))
  | '+' :: rest => (toNatDigits rest).map (fun n => (n : Int))
  | cs => (toNatDigits cs).map (fun n => (n : Int))

/-- The per-question body of the `collect_responses` loop (lines 157-181):
given the session values for `ans_{id}` and `conf_{id}` (absent = `none`),
either skip the question (`ok none`), raise (`error`, when the confidence
string does not parse as an int), or produce the row (`ok (some row)`). -/
def collectRow (q : Question) (ans conf : Option String) :
    Except String (Option ScoredResponse) :=
  match ans, conf with
  | some a, some cs =>
    if a == "" || a == "?" || cs == "" || cs == "?" then Except.ok none
    else
      match pyInt (pyRstripPercent cs) with
      | none => Except.error "ValueError"
      | some n =>
        let correct_option_text := if q.correct == 1 then q.option_1 else q.option_2
        Except.ok (some
          { id := q.id, round := q.round, prompt := q.prompt,
            selected_answer := a, correct_answer := correct_option_text,
            is_correct := a == correct_option_text, confidence_percent := n })
  | _, _ => Except.ok none

/-- The function collect_responses (lines 154-196): the loop over `questions`, keyed by
question id, appending the rows of the included questions in source order. -/
def collect_responses (qs : List Question) (ansOf confOf : Int → Option String) :
    Except String (List ScoredResponse) :=
  match qs with
  | [] => Except.ok []
  | q :: rest =>
    match collectRow q (ansOf q.id) (confOf q.id) with
    | Except.error e => Except.error e
    | Except.ok none => collect_responses rest ansOf confOf
    | Except.ok (some row) =>
      match collect_responses rest ansOf confOf with
      | Except.error e => Except.error e
      | Except.ok rows => Except.ok (row :: rows)

/-- The sorted list of distinct `confidence_percent` values present in the
input: the group keys of `df.groupby("confidence_percent")` (line 205),
which pandas returns in ascending key order, one group per occurring key. -/
def confidenceLevels (df : List ScoredResponse) : List Int :=
  List.insertionSort (fun a b => a ≤ b) (df.map (fun r => r.confidence_percent)).dedup

/-- The grouped row for one confidence level (lines 204-212):
`n_questions` = group size, `n_correct` = sum of `is_correct` over the group,
`percent_correct = n_correct / n_questions * 100`,
`stated_confidence` = the group key. -/
def bucketFor (df : List ScoredResponse) (c : Int) : CalibrationBucket :=
  (fun grp =>
    { confidence_percent := c,
      n_questions := grp.length,
      n_correct := (grp.filter (fun r => r.is_correct)).length,
      percent_correct :=
        (((grp.filter (fun r => r.is_correct)).length : Rat) / (grp.length : Rat)) * 100,
      stated_confidence := c })
  (df.filter (fun r => r.confidence_percent == c))

/-- The function compute_calibration (lines 199-221) on a non-empty DataFrame: the
grouped bucket rows, the Brier-style score
`mean((df.confidence_percent / 100 - df.is_correct.astype(int)) ** 2)`,
the overall accuracy `df.is_correct.mean()`, and `len(df)`.
(The `df.empty` early return at line 201 is unreachable: the caller only
invokes the function when `len(df) >= 1`.) -/
def compute_calibration (df : List ScoredResponse) :
    List CalibrationBucket × Rat × Rat × Nat :=
  (fun conf_prob outcome =>
    ((confidenceLevels df).map (bucketFor df),
     (List.zipWith (fun p o => (p - o) ^ 2) conf_prob outcome).sum / (df.length : Rat),
     ((df.filter (fun r => r.is_correct)).length : Rat) / (df.length : Rat),
     df.length))
  (df.map (fun r => (r.confidence_percent : Rat) / 100))
  (df.map (fun r => (if r.is_correct then (1 : Rat) else 0)))

/-- Outcome of pressing the score button: either the warning branch or the
rendered results (buckets, brier, accuracy, n_used). -/
inductive ScoreOutcome where
  | warning : ScoreOutcome
  | results : List CalibrationBucket → Rat → Rat → Nat → ScoreOutcome
deriving DecidableEq

/-- The `score_button` handler (lines 224-230): warn when fewer than one
response was collected, otherwise call `compute_calibration` and render. -/
def score_button_handler (responses : List ScoredResponse) : ScoreOutcome :=
  if responses.length < 1 then ScoreOutcome.warning
  else
    (fun out => ScoreOutcome.results out.1 out.2.1 out.2.2.1 out.2.2.2)
      (compute_calibration responses)

/-- The question-bank load at line 90:
`questions = pd.read_csv("questions.csv", sep=",").to_dict("records")`.
Modelled on the already-parsed record list; the point preserved by the
embedding is that the load performs no validation whatsoever: every record
list is accepted as-is. -/
def loadQuestions (records : List Question) : Except String (List Question) :=
  Except.ok records

/-- Modelled from the spec: the well-formedness the spec demands of the
question bank at load time (distinct ids, `correct` in {1,2}); the source
contains no code that checks it. -/
def bankWellFormed (qs : List Question) : Prop :=
  (qs.map (fun q => q.id)).Nodup ∧ ∀ q ∈ qs, q.correct = 1 ∨ q.correct = 2

/-- The per-response term of the spec's Brier formula:
`(stated_confidence/100 - outcome)^2` with outcome 1 for a correct answer
and 0 otherwise. -/
def brierSpecTerm (r : ScoredResponse) : Rat :=
  ((r.confidence_percent : Rat) / 100 - (if r.is_correct then 1 else 0)) ^ 2

/-- Arithmetic mean of a list of rationals. -/
def listMean (l : List Rat) : Rat :=
  l.sum / (l.length : Rat)

/-- The five confidence radio labels (lines 111 and 137):
`[f"{c}%" for c in CONFIDENCE_LEVELS]`. -/
def confRadioOptions : List String :=
  ["55%", "65%", "75%", "85%", "95%"]

/-- A representative two-option question (shape of EXAMPLE_QUESTIONS, lines 46-55). -/
def qBlueWhale : Question :=
  { id := 1, round := "Round 1", prompt := "Largest animal?",
    qtype := "tf", option_1 := "True", option_2 := "False", correct := 1 }

/-- The row `collect_responses` builds for `qBlueWhale` when the user selects
"True" with confidence "75%". -/
def rowBlueWhale : ScoredResponse :=
  { id := 1, round := "Round 1", prompt := "Largest animal?",
    selected_answer := "True", correct_answer := "True",
    is_correct := true, confidence_percent := 75 }

/-- A question whose correct option has empty-string text. -/
def qEmptyCorrect : Question :=
  { id := 9, round := "R", prompt := "P", qtype := "either",
    option_1 := "", option_2 := "B", correct := 1 }

/-- A bank record with `correct = 3`, outside the documented {1,2} domain. -/
def qCorrect3 : Question :=
  { id := 1, round := "R", prompt := "unscoreable", qtype := "either",
    option_1 := "A", option_2 := "B", correct := 3 }

/-- A second record reusing id 1. -/
def qDupId : Question :=
  { id := 1, round := "R", prompt := "duplicate id", qtype := "tf",
    option_1 := "True", option_2 := "False", correct := 2 }

/-- A malformed question bank: duplicate ids and a `correct` value not in {1,2}. -/
def malformedBank : List Question := [qCorrect3, qDupId]

/-- Sample scored responses used to instantiate the general theorems. -/
def rowT75 : ScoredResponse :=
  { id := 1, round := "R1", prompt := "P1", selected_answer := "True",
    correct_answer := "True", is_correct := true, confidence_percent := 75 }

/-- A second sample scored response at a different confidence level. -/
def rowF95 : ScoredResponse :=
  { id := 2, round := "R1", prompt := "P2", selected_answer := "True",
    correct_answer := "False", is_correct := false, confidence_percent := 95 }

/-! ### Helper lemmas -/

lemma mem_confidenceLevels {df : List ScoredResponse} {c : Int} :
    c ∈ confidenceLevels df ↔ c ∈ df.map (fun r => r.confidence_percent) := by
  unfold confidenceLevels
  rw [(List.perm_insertionSort _ _).mem_iff, List.mem_dedup]

lemma confidenceLevels_sorted (df : List ScoredResponse) :
    (confidenceLevels df).Sorted (fun a b => a ≤ b) :=
  List.sorted_insertionSort _ _

lemma confidenceLevels_nodup (df : List ScoredResponse) :
    (confidenceLevels df).Nodup :=
  (List.perm_insertionSort _ _).nodup_iff.mpr (List.nodup_dedup _)

lemma confidenceLevels_perm {df1 df2 : List ScoredResponse} (hp : List.Perm df1 df2) :
    confidenceLevels df1 = confidenceLevels df2 := by
  refine List.eq_of_perm_of_sorted ?_ (confidenceLevels_sorted df1) (confidenceLevels_sorted df2)
  exact ((List.perm_insertionSort (fun a b => a ≤ b)
      (df1.map (fun r => r.confidence_percent)).dedup).trans
    ((hp.map (fun r => r.confidence_percent)).dedup)).trans
    (List.perm_insertionSort (fun a b => a ≤ b)
      (df2.map (fun r => r.confidence_percent)).dedup).symm

lemma bucketFor_stated (df : List ScoredResponse) (c : Int) :
    (bucketFor df c).stated_confidence = c := rfl

lemma bucketFor_perm {df1 df2 : List ScoredResponse} (hp : List.Perm df1 df2) (c : Int) :
    bucketFor df1 c = bucketFor df2 c := by
  have h1 := hp.filter (fun r => r.confidence_percent == c)
  have hlen := h1.length_eq
  have hlen2 := (h1.filter (fun r => r.is_correct)).length_eq
  simp only [bucketFor]
  rw [hlen, hlen2]

lemma compute_calibration_fst (df : List ScoredResponse) :
    (compute_calibration df).1 = (confidenceLevels df).map (bucketFor df) := rfl

lemma brier_eq_mean (df : List ScoredResponse) :
    (compute_calibration df).2.1 = (df.map brierSpecTerm).sum / (df.length : Rat) := by
  show (List.zipWith (fun p o => (p - o) ^ 2)
      (df.map (fun r => (r.confidence_percent : Rat) / 100))
      (df.map (fun r => (if r.is_correct then (1 : Rat) else 0)))).sum / (df.length : Rat)
    = (df.map brierSpecTerm).sum / (df.length : Rat)
  rw [List.zipWith_map, List.zipWith_same]
  rfl

lemma sum_filter_lengths (levels : List Int) :
    ∀ df : List ScoredResponse, levels.Nodup →
      (∀ r ∈ df, r.confidence_percent ∈ levels) →
      ((levels.map (fun c =>
          (df.filter (fun r => r.confidence_percent == c)).length)).sum = df.length) := by
  induction levels with
  | nil =>
    intro df _ hcov
    cases df with
    | nil => simp
    | cons r rest => exact absurd (hcov r (by simp)) (by simp)
  | cons c ls ih =>
    intro df hnd hcov
    rw [List.nodup_cons] at hnd
    have hsplit := List.length_eq_length_filter_add
      (l := df) (fun r => r.confidence_percent == c)
    have hfe : ∀ c2 ∈ ls,
        ((df.filter (fun r => !(r.confidence_percent == c))).filter
            (fun r => r.confidence_percent == c2))
          = df.filter (fun r => r.confidence_percent == c2) := by
      intro c2 hc2
      have hne : c2 ≠ c := fun h => hnd.1 (h ▸ hc2)
      rw [List.filter_filter]
      apply List.filter_congr
      intro r _
      by_cases hr : r.confidence_percent = c2
      · simp [hr, hne]
      · simp [hr]
    have hcovB : ∀ r ∈ df.filter (fun r => !(r.confidence_percent == c)),
        r.confidence_percent ∈ ls := by
      intro r hr
      obtain ⟨hrdf, hrne⟩ := List.mem_filter.mp hr
      have := hcov r hrdf
      rcases List.mem_cons.mp this with heq | hmem
      · simp [heq] at hrne
      · exact hmem
    have hIH := ih (df.filter (fun r => !(r.confidence_percent == c))) hnd.2 hcovB
    have hmap : (ls.map (fun c2 =>
        (df.filter (fun r => r.confidence_percent == c2)).length)).sum
        = (df.filter (fun r => !(r.confidence_percent == c))).length := by
      rw [← hIH]
      congr 1
      apply List.map_congr_left
      intro c2 hc2
      rw [hfe c2 hc2]
    rw [List.map_cons, List.sum_cons, hmap]
    exact hsplit.symm

lemma collectRow_inv {q : Question} {a c : String} {row : ScoredResponse}
    (h : collectRow q (some a) (some c) = Except.ok (some row)) :
    (a == "" || a == "?" || c == "" || c == "?") = false ∧
    row.selected_answer = a ∧
    row.correct_answer = (if q.correct == 1 then q.option_1 else q.option_2) ∧
    row.is_correct = (a == (if q.correct == 1 then q.option_1 else q.option_2)) := by
  rw [collectRow] at h
  by_cases hcond : (a == "" || a == "?" || c == "" || c == "?") = true
  · rw [if_pos hcond] at h
    exact absurd h (by simp)
  · rw [Bool.not_eq_true] at hcond
    rw [if_neg (by simp [hcond])] at h
    refine ⟨hcond, ?_⟩
    cases hp : pyInt (pyRstripPercent c) with
    | none => rw [hp] at h; exact absurd h (by simp)
    | some n =>
      rw [hp] at h
      simp only [Except.ok.injEq, Option.some.injEq] at h
      subst h
      exact ⟨rfl, rfl, rfl⟩

/-! ### Claim theorems -/

/-- C1: for every non-empty list of ScoredResponses, the engine's
`brier_score` equals the arithmetic mean, over all responses, of
`(stated_confidence/100 - outcome)^2` with outcome 1 for a correct answer
and 0 otherwise. -/
theorem brier_is_spec_mean (df : List ScoredResponse) (h : df ≠ []) :
    (compute_calibration df).2.1 = listMean (df.map brierSpecTerm) := by
  rw [brier_eq_mean, listMean, List.length_map]

/-- Witness for C1 at a concrete one-element input. -/
theorem brier_is_spec_mean_witness :
    ([rowT75] ≠ ([] : List ScoredResponse)) ∧
      (compute_calibration [rowT75]).2.1 = listMean ([rowT75].map brierSpecTerm) :=
  ⟨by decide, brier_is_spec_mean [rowT75] (by decide)⟩

/-- C2: for every question included by the collector, `is_correct` holds iff
the selected option's text equals the text of the option slot named by
`correct` (option_1 when correct = 1, option_2 when correct = 2); the
comparison is on option text. -/
theorem is_correct_by_text_equality (q : Question) (a c : String) (row : ScoredResponse)
    (h : collectRow q (some a) (some c) = Except.ok (some row)) :
    (q.correct = 1 → (row.is_correct = true ↔ a = q.option_1)) ∧
    (q.correct = 2 → (row.is_correct = true ↔ a = q.option_2)) := by
  obtain ⟨-, -, -, hic⟩ := collectRow_inv h
  constructor
  · intro h1
    rw [hic, h1]
    simp
  · intro h2
    rw [hic, h2]
    simp

/-- Witness for C2 at a concrete included question. -/
theorem is_correct_by_text_equality_witness :
    qBlueWhale.correct = 1 ∧
      (rowBlueWhale.is_correct = true ↔ "True" = qBlueWhale.option_1) :=
  ⟨rfl, (is_correct_by_text_equality qBlueWhale "True" "75%" rowBlueWhale rfl).1 rfl⟩

/-- C3: for every non-empty input and every bucket produced,
`0 ≤ n_correct ≤ n_questions`, and `percent_correct = 100 * n_correct /
n_questions` — exactly, in ℚ, hence within any tolerance. -/
theorem bucket_counts_consistent (df : List ScoredResponse) (h : df ≠ []) :
    ∀ b ∈ (compute_calibration df).1,
      0 ≤ b.n_correct ∧ b.n_correct ≤ b.n_questions ∧
      b.percent_correct = 100 * (b.n_correct : Rat) / (b.n_questions : Rat) := by
  intro b hb
  rw [compute_calibration_fst] at hb
  obtain ⟨c, hc, rfl⟩ := List.mem_map.mp hb
  refine ⟨Nat.zero_le _, ?_, ?_⟩
  · exact List.length_filter_le _ _
  · simp only [bucketFor]
    ring

/-- Witness for C3 at a concrete one-element input. -/
theorem bucket_counts_consistent_witness :
    ([rowT75] ≠ ([] : List ScoredResponse)) ∧
      (bucketFor [rowT75] 75).n_correct ≤ (bucketFor [rowT75] 75).n_questions :=
  ⟨by decide,
    (bucket_counts_consistent [rowT75] (by decide) (bucketFor [rowT75] 75)
      (List.mem_map_of_mem (bucketFor [rowT75]) (by decide))).2.1⟩

/-- C9: for every non-empty input, the produced bucket list is sorted by
`stated_confidence` in ascending order. -/
theorem buckets_sorted_ascending (df : List ScoredResponse) (h : df ≠ []) :
    (((compute_calibration df).1).map (fun b => b.stated_confidence)).Sorted
      (fun a b => a ≤ b) := by
  have hmap : ((compute_calibration df).1).map (fun b => b.stated_confidence)
      = confidenceLevels df := by
    rw [compute_calibration_fst, List.map_map]
    have : ((fun b => b.stated_confidence) ∘ bucketFor df) = fun c => c := by
      funext c
      exact bucketFor_stated df c
    rw [this, List.map_id']
  rw [hmap]
  exact confidenceLevels_sorted df

/-- Witness for C9 at a concrete one-element input. -/
theorem buckets_sorted_ascending_witness :
    ([rowT75] ≠ ([] : List ScoredResponse)) ∧
      (((compute_calibration [rowT75]).1).map (fun b => b.stated_confidence)).Sorted
        (fun a b => a ≤ b) :=
  ⟨by decide, buckets_sorted_ascending [rowT75] (by decide)⟩

/-- C4: for every non-empty input the buckets partition it: the bucket sizes
sum to `n_scored`, no produced bucket is empty, and a bucket exists exactly
for each confidence level that occurs in the input. -/
theorem buckets_partition (df : List ScoredResponse) (h : df ≠ []) :
    ((((compute_calibration df).1).map (fun b => b.n_questions)).sum
        = (compute_calibration df).2.2.2) ∧
    (∀ b ∈ (compute_calibration df).1, 0 < b.n_questions) ∧
    (∀ c : Int, (∃ b ∈ (compute_calibration df).1, b.stated_confidence = c) ↔
      (∃ r ∈ df, r.confidence_percent = c)) := by
  have hcov : ∀ r ∈ df, r.confidence_percent ∈ confidenceLevels df := by
    intro r hr
    exact mem_confidenceLevels.mpr (List.mem_map_of_mem (fun r => r.confidence_percent) hr)
  refine ⟨?_, ?_, ?_⟩
  · rw [compute_calibration_fst, List.map_map]
    have hcomp : ((fun b => b.n_questions) ∘ bucketFor df)
        = fun c => (df.filter (fun r => r.confidence_percent == c)).length := rfl
    rw [hcomp]
    exact sum_filter_lengths (confidenceLevels df) df (confidenceLevels_nodup df) hcov
  · intro b hb
    rw [compute_calibration_fst] at hb
    obtain ⟨c, hc, rfl⟩ := List.mem_map.mp hb
    obtain ⟨r, hr, hrc⟩ := List.mem_map.mp (mem_confidenceLevels.mp hc)
    have hmem : r ∈ df.filter (fun r => r.confidence_percent == c) :=
      List.mem_filter.mpr ⟨hr, by simp [hrc]⟩
    exact List.length_pos.mpr (List.ne_nil_of_mem hmem)
  · intro c
    constructor
    · rintro ⟨b, hb, hbc⟩
      rw [compute_calibration_fst] at hb
      obtain ⟨c2, hc2, rfl⟩ := List.mem_map.mp hb
      rw [bucketFor_stated] at hbc
      subst hbc
      obtain ⟨r, hr, hrc⟩ := List.mem_map.mp (mem_confidenceLevels.mp hc2)
      exact ⟨r, hr, hrc⟩
    · rintro ⟨r, hr, hrc⟩
      refine ⟨bucketFor df c, ?_, bucketFor_stated df c⟩
      rw [compute_calibration_fst]
      exact List.mem_map_of_mem (bucketFor df)
        (mem_confidenceLevels.mpr (List.mem_map.mpr ⟨r, hr, hrc⟩))

/-- Witness for C4 at a concrete one-element input. -/
theorem buckets_partition_witness :
    ([rowT75] ≠ ([] : List ScoredResponse)) ∧
      ((((compute_calibration [rowT75]).1).map (fun b => b.n_questions)).sum
        = (compute_calibration [rowT75]).2.2.2) :=
  ⟨by decide, (buckets_partition [rowT75] (by decide)).1⟩

/-- C5: the engine is a pure function of the multiset of responses: permuting
the input changes nothing in the output (buckets, brier score, accuracy and
count); there is no dependence on randomness or time. -/
theorem calibration_perm_invariant (df1 df2 : List ScoredResponse) (h : df1 ≠ [])
    (hp : List.Perm df1 df2) :
    compute_calibration df1 = compute_calibration df2 := by
  have h1 : (compute_calibration df1).1 = (compute_calibration df2).1 := by
    rw [compute_calibration_fst, compute_calibration_fst, confidenceLevels_perm hp]
    apply List.map_congr_left
    intro c _
    exact bucketFor_perm hp c
  have h2 : (compute_calibration df1).2.1 = (compute_calibration df2).2.1 := by
    rw [brier_eq_mean, brier_eq_mean, (hp.map brierSpecTerm).sum_eq, hp.length_eq]
  have h3 : (compute_calibration df1).2.2.1 = (compute_calibration df2).2.2.1 := by
    show ((df1.filter (fun r => r.is_correct)).length : Rat) / (df1.length : Rat)
      = ((df2.filter (fun r => r.is_correct)).length : Rat) / (df2.length : Rat)
    rw [(hp.filter (fun r => r.is_correct)).length_eq, hp.length_eq]
  have h4 : (compute_calibration df1).2.2.2 = (compute_calibration df2).2.2.2 :=
    hp.length_eq
  exact Prod.ext h1 (Prod.ext h2 (Prod.ext h3 h4))

/-- Witness for C5 at a concrete two-element input and its swap. -/
theorem calibration_perm_invariant_witness :
    ([rowT75, rowF95] ≠ ([] : List ScoredResponse)) ∧
      List.Perm [rowT75, rowF95] [rowF95, rowT75] ∧
      compute_calibration [rowT75, rowF95] = compute_calibration [rowF95, rowT75] :=
  ⟨by decide, List.Perm.swap rowF95 rowT75 [],
    calibration_perm_invariant [rowT75, rowF95] [rowF95, rowT75] (by decide)
      (List.Perm.swap rowF95 rowT75 [])⟩

/-- C6 counterexample: the blue-whale question with both session fields
present (answer "?" and confidence "75%") is nevertheless excluded from the
produced list, so "for every question with both fields present it is
included" fails as stated. -/
theorem both_fields_present_but_excluded :
    collect_responses [qBlueWhale] (fun _ => some "?") (fun _ => some "75%")
      = Except.ok [] := rfl

/-- C6 amended: missing or one-sided input is silently excluded (no error);
a question with both fields present is included provided the selected text
is neither empty nor "?" and the confidence string is one of the five radio
labels. -/
theorem collector_skip_and_include (q : Question) (ans conf : Option String) :
    ((ans = none ∨ conf = none) → collectRow q ans conf = Except.ok none) ∧
    (∀ a c, ans = some a → conf = some c → a ≠ "" → a ≠ "?" →
      c ∈ confRadioOptions → ∃ row, collectRow q ans conf = Except.ok (some row)) := by
  constructor
  · rintro (rfl | rfl)
    · cases conf <;> rfl
    · cases ans <;> rfl
  · rintro a c rfl rfl ha1 ha2 hc
    simp only [confRadioOptions, List.mem_cons, List.not_mem_nil, or_false] at hc
    have hcond : ∀ cs : String, cs = c →
        cs ≠ "" → cs ≠ "?" → (a == "" || a == "?" || cs == "" || cs == "?") = false := by
      intro cs _ hcs1 hcs2
      simp [ha1, ha2, hcs1, hcs2]
    rcases hc with rfl | rfl | rfl | rfl | rfl <;>
      rw [collectRow,
        if_neg (by rw [hcond _ rfl (by decide) (by decide)]; exact fun hk => nomatch hk)] <;>
      exact ⟨_, rfl⟩

/-- Witness for the C6 amended theorem: both branches at concrete inputs. -/
theorem collector_skip_and_include_witness :
    ∃ row, collectRow qBlueWhale (some "True") (some "75%") = Except.ok (some row) :=
  (collector_skip_and_include qBlueWhale (some "True") (some "75%")).2 "True" "75%"
    rfl rfl (by decide) (by decide) (by decide)

/-- C7: whenever the collector yields zero usable responses, the button
handler produces the warning and never the results branch, so the engine's
output does not appear anywhere. -/
theorem zero_responses_warning (qs : List Question) (ansOf confOf : Int → Option String)
    (rs : List ScoredResponse) (hcol : collect_responses qs ansOf confOf = Except.ok rs)
    (hz : rs.length < 1) :
    score_button_handler rs = ScoreOutcome.warning ∧
    ∀ bs br acc n, score_button_handler rs ≠ ScoreOutcome.results bs br acc n := by
  have hnil : rs = [] := List.length_eq_zero.mp (Nat.lt_one_iff.mp hz)
  subst hnil
  refine ⟨rfl, ?_⟩
  intro bs br acc n hcontra
  exact nomatch hcontra

/-- Witness for C7: an empty bank collects zero responses and warns. -/
theorem zero_responses_warning_witness :
    (collect_responses [] (fun _ => none) (fun _ => none)
        = Except.ok ([] : List ScoredResponse)) ∧
      (([] : List ScoredResponse).length < 1) ∧
      score_button_handler [] = ScoreOutcome.warning :=
  ⟨rfl, by decide,
    (zero_responses_warning [] (fun _ => none) (fun _ => none) [] rfl (by decide)).1⟩

/-- C8: the code performs no load-time validation. A bank with a duplicate
id and a `correct` value outside {1,2} is loaded successfully and then
scored — with any `correct` other than 1 silently treated as option_2 being
correct — instead of the load-time failure the claim requires. -/
theorem malformed_bank_loads_and_runs :
    (¬ bankWellFormed malformedBank) ∧
    loadQuestions malformedBank = Except.ok malformedBank ∧
    collect_responses malformedBank (fun _ => some "B") (fun _ => some "95%") =
      Except.ok
        [{ id := 1, round := "R", prompt := "unscoreable", selected_answer := "B",
           correct_answer := "B", is_correct := true, confidence_percent := 95 },
         { id := 1, round := "R", prompt := "duplicate id", selected_answer := "B",
           correct_answer := "False", is_correct := false, confidence_percent := 95 }] := by
  refine ⟨fun hwf => ?_, rfl, rfl⟩
  exact absurd (hwf.2 qCorrect3 (List.mem_cons_self qCorrect3 [qDupId])) (by decide)

/-- C10 counterexample: a question whose correct option has empty-string
text is nevertheless scored (as incorrect) when the user selects the other
option, so "can never be scored" fails as stated. -/
theorem empty_correct_option_still_scored :
    collect_responses [qEmptyCorrect] (fun _ => some "B") (fun _ => some "75%") =
      Except.ok
        [{ id := 9, round := "R", prompt := "P", selected_answer := "B",
           correct_answer := "", is_correct := false, confidence_percent := 75 }] := rfl

/-- C10 amended: a question is excluded, even with both fields present, when
the selected text or the confidence string is empty or "?"; consequently a
question whose correct option has empty-string text can never be scored as
correct — every row it yields has `is_correct = false`. -/
theorem skip_filter_and_empty_correct (q : Question) (a c : String) :
    ((a = "" ∨ a = "?" ∨ c = "" ∨ c = "?") →
      collectRow q (some a) (some c) = Except.ok none) ∧
    ((if q.correct == 1 then q.option_1 else q.option_2) = "" →
      ∀ row, collectRow q (some a) (some c) = Except.ok (some row) →
        row.is_correct = false) := by
  constructor
  · intro hcase
    have hcond : (a == "" || a == "?" || c == "" || c == "?") = true := by
      rcases hcase with rfl | rfl | rfl | rfl <;> simp
    rw [collectRow, if_pos hcond]
  · intro hempty row hrow
    obtain ⟨hcond, -, -, hic⟩ := collectRow_inv hrow
    rw [hempty] at hic
    simp only [Bool.or_eq_false_iff] at hcond
    rw [hic, hcond.1.1.1]

/-- Witness for the C10 amended theorem: an empty selected text is skipped. -/
theorem skip_filter_and_empty_correct_witness :
    collectRow qEmptyCorrect (some "") (some "55%") = Except.ok none :=
  (skip_filter_and_empty_correct qEmptyCorrect "" "55%").1 (Or.inl rfl)
